import Mathlib

/-!
Verification of the query interpretation → structured-query synthesis →
result fusion pipeline of the stick-ai-frontend repository.

The definitions below are a shallow embedding of:
  * `src/app/api/query/route.ts` — the live route: `buildSnowflakeQuery`,
    `formatResultsAsTable`, `fusionSmartRetrieval`, `interpretQuery`, `POST`;
  * `src/lib/sqlBuilder/columns.ts` — `columnMapping`, `safeMapFields`,
    `extractKeywords`;
  * `src/lib/sqlBuilder/builder.ts` — `buildSQL`.

JavaScript strings are modelled by `String`, JS objects produced by the
classifier by association lists in insertion order, and the nondeterministic
collaborators (Snowflake execution, the Pinecone semantic search, the two
GPT calls) by explicit oracle parameters.  JS string primitives used by the
source (`toLowerCase`, `trim`) are re-implemented structurally so that every
definition evaluates inside the kernel.
-/

namespace StickAI

/-- Model of JS `String.prototype.toLowerCase` (the source only lowercases
ASCII vocabulary, where `Char.toLower` agrees with JS). -/
def jsToLower (s : String) : String := ⟨s.data.map Char.toLower⟩

/-- Model of JS `String.prototype.trim`: drop whitespace from both ends. -/
def jsTrim (s : String) : String :=
  ⟨(((s.data.dropWhile Char.isWhitespace).reverse).dropWhile Char.isWhitespace).reverse⟩

/-- A JSON value sitting in the classifier's `filters` object: either a
string or an array of strings (the only shapes the query builders consume:
`{ keyword: 'electric' }`, `{ keyword: ['electric','pump'] }`,
`{ vendor: ['!=', 'Exxon'] }`). -/
inductive FilterVal where
  | str (s : String)
  | list (ss : List String)
  deriving DecidableEq

/-- JS coercion of a filter value to a string when interpolated into a
template literal: arrays stringify as their comma-joined elements. -/
def FilterVal.toJs : FilterVal → String
  | .str s => s
  | .list ss => String.intercalate "," ss

/-- JS truthiness of a filter value (`if (filters.keyword)`): the empty
string is falsy, every array (even `[]`) is truthy. -/
def FilterVal.truthy : FilterVal → Bool
  | .str s => decide (s ≠ "")
  | .list _ => true

/-- JS `x || dflt` for an optional string field: `undefined` and `""` both
fall through to the default. -/
def jsOrStr (v : Option String) (dflt : String) : String :=
  match v with
  | some s => if s = "" then dflt else s
  | none => dflt

/-- The expanded column mapping of `src/app/api/query/route.ts` lines 11-53,
alias term → Snowflake column identifier. -/
def columnMapping : List (String × String) :=
  [("utm id", "UTM_ID"),
   ("gl identifier", "UTM_ID"),
   ("co id", "CO_ID"),
   ("company", "CO_ID"),
   ("name", "NAME"),
   ("company name", "NAME"),
   ("wellcode", "WELLCODE"),
   ("accountingid", "WELLCODE"),
   ("well code", "WELLCODE"),
   ("cost center", "WELLCODE"),
   ("well name", "WELL_NAME"),
   ("cost center name", "WELL_NAME"),
   ("accounting period", "PER_END_DATE"),
   ("month end", "PER_END_DATE"),
   ("posting date", "POSTING_DATE"),
   ("accounting date", "LOS_PRODUCTIONDATE"),
   ("activity date", "LOS_PRODUCTIONDATE"),
   ("excalibur module", "SYSTEM_CODE"),
   ("document", "DOCUMENT"),
   ("journal entry", "VOUCHER"),
   ("description", "DESCRIPTION"),
   ("annotation", "ANNOTATION"),
   ("vendor", "VENDORNAME"),
   ("vendor id", "VENDOR_ID"),
   ("afe", "AFE_ID"),
   ("afe name", "AFENAME"),
   ("gas purchaser", "PURCH_ID"),
   ("purchaser number", "PURCH_ID"),
   ("purchaser", "PURCHNAME"),
   ("gl account", "ACCT_ID"),
   ("account number", "ACCT_ID"),
   ("general ledger account", "ACCTNAME"),
   ("account name", "ACCTNAME"),
   ("mcf", "QUANTITY"),
   ("volume", "QUANTITY"),
   ("quantity", "QUANTITY"),
   ("balance", "BALANCE"),
   ("amount", "BALANCE"),
   ("number", "BALANCE"),
   ("modified by", "LAST_CHANGE_BY"),
   ("created by", "CREATED_BY")]

/-- The structured interpretation the classifier returns for the live route
(`route.ts`): the four fields `buildSnowflakeQuery` and
`fusionSmartRetrieval` read.  `none` stands for a missing JSON field. -/
structure Interpretation where
  data_type : Option String
  group_by : Option (List String)
  filters : Option (List (String × FilterVal))
  mode : Option String
  deriving DecidableEq

/-- `route.ts` lines 117-123: map each `group_by` term through
`columnMapping[term.toLowerCase()] || term` (no trimming), then keep only
terms whose resolution is a live table column. -/
def resolveGroupBy (rawGroupBy : List String) (tableColumns : List String) : List String :=
  (rawGroupBy.map fun term => (List.lookup (jsToLower term) columnMapping).getD term).filter
    (fun col => tableColumns.contains col)

/-- JS object assignment `acc[mapped] = val` inside a reduce: overwrite in
place when the key exists, otherwise append (JS objects keep insertion
order). -/
def objUpsert (acc : List (String × FilterVal)) (k : String) (v : FilterVal) :
    List (String × FilterVal) :=
  if acc.any (fun p => p.1 = k) then acc.map (fun p => if p.1 = k then (k, v) else p)
  else acc ++ [(k, v)]

/-- `route.ts` lines 126-130: resolve named filter fields through the alias
table (lowercase, no trim) and keep only those whose resolved column is in
the catalog. -/
def resolveFilters (filters : List (String × FilterVal)) (tableColumns : List String) :
    List (String × FilterVal) :=
  filters.foldl
    (fun acc kv =>
      let mapped := (List.lookup (jsToLower kv.1) columnMapping).getD kv.1
      if tableColumns.contains mapped then objUpsert acc mapped kv.2 else acc)
    []

/-- `route.ts` line 134: the silent keyword substitution
`filters.keyword === "electricity" ? "electric" : filters.keyword`,
followed by the template-literal interpolation of the result. -/
def keywordOf (kv : FilterVal) : String :=
  if kv = FilterVal.str "electricity" then "electric" else kv.toJs

/-- `route.ts` line 135: the keyword predicate, an OR of ILIKE contains
checks over the three searchable text columns of the live route. -/
def keywordWhere (kv : FilterVal) : String :=
  let keyword := keywordOf kv
  "(ACCTNAME ILIKE '%" ++ keyword ++ "%' OR DESCRIPTION ILIKE '%" ++ keyword ++
    "%' OR ANNOTATION ILIKE '%" ++ keyword ++ "%')"

/-- `route.ts` lines 138-143: render one resolved named filter; a two-element
array is an `(operator, literal)` pair, anything else an equality. -/
def filterCondSQL (field : String) (cond : FilterVal) : String :=
  match cond with
  | .list [a, b] => field ++ " " ++ a ++ " '" ++ b ++ "'"
  | c => field ++ " = '" ++ c.toJs ++ "'"

/-- `route.ts` lines 136-145: the equality branch of the WHERE construction,
taken only when the keyword filter is absent or falsy. -/
def equalityWhere (filters : List (String × FilterVal)) (tableColumns : List String) : String :=
  let resolvedFilters := resolveFilters filters tableColumns
  if resolvedFilters.isEmpty then ""
  else String.intercalate " AND " (resolvedFilters.map fun p => filterCondSQL p.1 p.2)

/-- `route.ts` lines 132-145: the WHERE predicate.  A truthy
`filters.keyword` takes the keyword branch and the resolved equality
filters are never consulted; otherwise the equality clauses are AND-joined;
with neither, the clause is empty. -/
def whereClauseOf (filters : List (String × FilterVal)) (tableColumns : List String) : String :=
  match List.lookup "keyword" filters with
  | some kv => if kv.truthy then keywordWhere kv else equalityWhere filters tableColumns
  | none => equalityWhere filters tableColumns

/-- `route.ts` lines 114-171, `buildSnowflakeQuery`: the aggregate
(`isRaw = false`) and raw (`isRaw = true`) query strings.  The local
`data_type` of line 115 is bound by the source and never used. -/
def buildSnowflakeQuery (interpretation : Interpretation) (tableColumns : List String)
    (isRaw : Bool) : String :=
  let group_by := resolveGroupBy (interpretation.group_by.getD []) tableColumns
  let filters := interpretation.filters.getD []
  let whereClause := whereClauseOf filters tableColumns
  let selectFields := if group_by.isEmpty then "" else String.intercalate ", " group_by ++ ", "
  let groupByClause :=
    if group_by.isEmpty then "" else "GROUP BY " ++ String.intercalate ", " group_by
  let orderByClause :=
    if group_by.isEmpty then "" else "ORDER BY " ++ String.intercalate ", " group_by
  let columnsForDisplay :=
    if group_by.isEmpty then ""
    else "\n/* Columns used in query: " ++ String.intercalate ", " group_by ++ " */"
  if isRaw then
    jsTrim ("\n      SELECT *\n      FROM STICK_DB.FINANCIAL.S3_GL\n      " ++
      (if whereClause = "" then "" else "WHERE " ++ whereClause) ++ "\n      LIMIT 100\n    ")
  else
    jsTrim ("\n    " ++ columnsForDisplay ++ "\n    SELECT " ++ selectFields ++
      "SUM(BALANCE) AS TOTAL\n    FROM STICK_DB.FINANCIAL.S3_GL\n    " ++
      (if whereClause = "" then "" else "WHERE " ++ whereClause) ++ "\n    " ++
      groupByClause ++ "\n    " ++ orderByClause ++ "\n    LIMIT 100\n  ")

/-- Auxiliary substring scan: does `pat` start at some position of the
second list? -/
def listContainsAux (pat : List Char) : List Char → Bool
  | [] => pat.isEmpty
  | c :: rest => List.isPrefixOf pat (c :: rest) || listContainsAux pat rest

/-- Substring test used to state containment facts about generated SQL. -/
def strContains (s pat : String) : Bool := listContainsAux pat.data s.data

/-- A row (or Pinecone match metadata object) as returned by a collaborator:
field names paired with nullable rendered values (`none` models JS
`null`/`undefined`). -/
abbrev RowObj : Type := List (String × Option String)

/-- The `${row[key] ?? ""}` rendering of `route.ts` line 178: a missing key
or a null value renders as the empty string. -/
def cellValue (row : RowObj) (key : String) : String :=
  match List.lookup key row with
  | some (some v) => v
  | some none => ""
  | none => ""

/-- `route.ts` lines 175-179: header row, separator row, and one pipe row
per record, in order (the components later joined with a newline). -/
def tableLines (rows : List RowObj) : List String :=
  match rows with
  | [] => []
  | r0 :: _ =>
    let headers := r0.map Prod.fst
    let headerRow := "| " ++ String.intercalate " | " headers ++ " |"
    let separatorRow := "| " ++ String.intercalate " | " (headers.map fun _ => "---") ++ " |"
    let dataRows := rows.map fun row =>
      "| " ++ String.intercalate " | " (headers.map fun key => cellValue row key) ++ " |"
    headerRow :: separatorRow :: dataRows

/-- `route.ts` lines 173-180, `formatResultsAsTable`. -/
def formatResultsAsTable (rows : List RowObj) : String :=
  if rows.isEmpty then "No results found."
  else String.intercalate "\n" (tableLines rows)

/-- Number of textual lines of a string: newline characters plus one. -/
def textLineCount (s : String) : Nat := s.data.count '\n' + 1

/-- The collaborators `fusionSmartRetrieval` consults, as oracles: Snowflake
execution (`exec`, rows per SQL text) and the semantic search (`semantic`,
the embedding call plus the Pinecone top-3 query collapsed into one oracle
returning match metadata objects for the search text). -/
structure RetrievalEnv where
  exec : String → List RowObj
  semantic : String → List RowObj

/-- The record `fusionSmartRetrieval` returns (`route.ts` line 182). -/
structure FusionOutcome where
  combinedTextForSummary : String
  rawDataText : String
  sourceNote : String
  deriving DecidableEq

/-- Which collaborator calls a run of `fusionSmartRetrieval` performed, in
order: the SQL texts executed against Snowflake and the texts sent to the
semantic-search path. -/
structure FusionLog where
  executedQueries : List String
  semanticQueries : List String
  deriving DecidableEq

/-- `route.ts` lines 210-213 and 217: render a list of metadata/row objects
as numbered blocks, `null`/`undefined` values printing as `"n/a"`. -/
def taggedBlocks (tag : String) (objs : List RowObj) : List String :=
  objs.enum.map fun p =>
    tag ++ " " ++ toString (p.1 + 1) ++ ":\n" ++
      String.intercalate "\n" (p.2.map fun kv => kv.1 ++ ": " ++ kv.2.getD "n/a")

/-- `route.ts` lines 182-224, `fusionSmartRetrieval`, paired with the log of
collaborator calls it makes.  Summary mode returns after the aggregate
query; search mode additionally calls the semantic search and the raw
query, and sets the advisory note exactly when the aggregate result set is
empty. -/
def fusionSmartRetrieval (query : String) (interpretation : Interpretation)
    (tableColumns : List String) (env : RetrievalEnv) : FusionOutcome × FusionLog :=
  let isSummary := interpretation.mode = some "summary"
  let snowflakeAggQuery := buildSnowflakeQuery interpretation tableColumns false
  let snowflakeAggResults := env.exec snowflakeAggQuery
  let aggTable := formatResultsAsTable snowflakeAggResults
  if isSummary then
    (⟨aggTable, aggTable, ""⟩, ⟨[snowflakeAggQuery], []⟩)
  else
    let pineconeQuery := jsOrStr interpretation.data_type "financial" ++ " " ++ query
    let pineconeData := taggedBlocks "Pinecone Raw Result" (env.semantic pineconeQuery)
    let snowflakeRawQuery := buildSnowflakeQuery interpretation tableColumns true
    let snowflakeRawResults := env.exec snowflakeRawQuery
    let rawData := taggedBlocks "Snowflake Raw Result" snowflakeRawResults
    (⟨String.intercalate "\n\n" (aggTable :: pineconeData),
      String.intercalate "\n\n" (pineconeData ++ rawData),
      if snowflakeAggResults.isEmpty then "Note: results based on semantic search only."
      else ""⟩,
     ⟨[snowflakeAggQuery, snowflakeRawQuery], [pineconeQuery]⟩)

/-- `route.ts` lines 107-111: the tail of `interpretQuery`.  `JSON.parse` is
a platform builtin, so its outcome on the classifier's raw output is passed
in as `parsed` (`none` models a parse failure); on failure the source throws
an error carrying the raw classifier output. -/
def interpretQueryTail (rawContent : String) (parsed : Option Interpretation) :
    Except String Interpretation :=
  match parsed with
  | some interpretation => .ok interpretation
  | none => .error ("Failed to parse GPT interpretation:\n" ++ rawContent)

/-- The JSON payload of a route response: `{ summary, rawData }` on success,
`{ error }` from the catch-all handler. -/
inductive RouteResponse where
  | success (summary : String) (rawData : String)
  | failure (error : String)
  deriving DecidableEq

/-- HTTP status paired with each `route.ts` response shape: 200 for the
success payload, 500 for the catch-all error payload. -/
def RouteResponse.status : RouteResponse → Nat
  | .success _ _ => 200
  | .failure _ => 500

/-- One outbound data-store interaction of the `POST` handler: the
`connection.connect` call, the `INFORMATION_SCHEMA` column fetch, or the
execution of a generated query. -/
inductive StoreCall where
  | connect
  | columnFetch
  | execQuery (sql : String)
  deriving DecidableEq

/-- JS falsiness of the request's `query` field (`if (!query)`): missing or
empty. -/
def jsFalsyStr : Option String → Bool
  | none => true
  | some s => decide (s = "")

/-- `route.ts` lines 226-281, `POST`, with the collaborators as oracles:
`reqQuery` is the parsed body's `query` field, `rawContent`/`parsed` the
classifier call's raw output and its `JSON.parse` outcome, `tableColumns`
the catalog fetch result, `env` the retrieval oracles and `gptSummary` the
summarization call's answer.  The second component logs every data-store
call in program order; a thrown `Error` surfaces through the catch-all as a
500 response whose text is `String(error)` (the `Error: ` prefix). -/
def POSTmodel (reqQuery : Option String) (rawContent : String)
    (parsed : Option Interpretation) (tableColumns : List String) (env : RetrievalEnv)
    (gptSummary : String) : RouteResponse × List StoreCall :=
  if jsFalsyStr reqQuery then (.failure "Error: Query is required", [])
  else
    match interpretQueryTail rawContent parsed with
    | .error msg => (.failure ("Error: " ++ msg), [])
    | .ok interpretation =>
      let (outcome, log) := fusionSmartRetrieval (reqQuery.getD "") interpretation
        tableColumns env
      (.success gptSummary outcome.rawDataText,
       [StoreCall.connect, StoreCall.columnFetch] ++ log.executedQueries.map StoreCall.execQuery)

/-- The column mapping of `src/lib/sqlBuilder/columns.ts` lines 3-38 (the
module-level sibling of the route's mapping, named `columnMapping` there). -/
def columnMappingLib : List (String × String) :=
  [("gl identifier", "UTM_ID"),
   ("company", "CO_ID"),
   ("company name", "NAME"),
   ("well code", "WELLCODE"),
   ("accountingid", "WELLCODE"),
   ("cost center", "WELLCODE"),
   ("cost center name", "WELL_NAME"),
   ("well name", "WELL_NAME"),
   ("accounting period", "PER_END_DATE"),
   ("month end", "PER_END_DATE"),
   ("posting date", "POSTING_DATE"),
   ("accounting date", "LOS_PRODUCTIONDATE"),
   ("activity date", "LOS_PRODUCTIONDATE"),
   ("excalibur module", "SYSTEM_CODE"),
   ("journal entry", "VOUCHER"),
   ("vendor", "VENDORNAME"),
   ("vendor name", "VENDORNAME"),
   ("afe", "AFE_ID"),
   ("gas purchaser", "PURCH_ID"),
   ("purchaser", "PURCHNAME"),
   ("purchaser number", "PURCH_ID"),
   ("gl account", "ACCT_ID"),
   ("general ledger account", "ACCT_ID"),
   ("account number", "ACCT_ID"),
   ("account id", "ACCT_ID"),
   ("account code", "ACCT_ID"),
   ("account name", "ACCTNAME"),
   ("volume", "QUANTITY"),
   ("quantity", "QUANTITY"),
   ("mcf", "QUANTITY"),
   ("balance", "BALANCE"),
   ("modified by", "LAST_CHANGE_BY"),
   ("created by", "CREATED_BY"),
   ("invoice type", "DESCRIPTION")]

/-- `columns.ts` lines 40-56, `safeMapFields`: normalize each string term by
`toLowerCase().trim()`, map through the alias table with fallback to the
normalized key, and keep only resolutions that are live columns (the source
also skips non-string array elements, so string terms are taken here, and
its `type` argument only labels the diagnostic warning). -/
def safeMapFields (terms : List String) (_type : String) (columns : List String) :
    List String :=
  terms.foldl
    (fun mapped term =>
      let key := jsTrim (jsToLower term)
      let mappedValue := (List.lookup key columnMappingLib).getD key
      if columns.contains mappedValue then mapped ++ [mappedValue] else mapped)
    []

/-- `columns.ts` lines 72-81, `extractKeywords`: collect the values of every
filter key spelled `keyword` (case-insensitively), flattening arrays. -/
def extractKeywords (filters : List (String × FilterVal)) : List String :=
  filters.foldl
    (fun keywords kv =>
      if jsToLower kv.1 = "keyword" then
        match kv.2 with
        | .list ss => keywords ++ ss
        | .str s => keywords ++ [s]
      else keywords)
    []

/-- `builder.ts` lines 106-108: the keyword predicate of `buildSQL` — for
each term an OR of ILIKE contains checks over the four searchable text
columns, the per-term clauses joined with AND. -/
def keywordSearchClause (keywords : List String) : String :=
  String.intercalate " AND " (keywords.map fun k =>
    "(DESCRIPTION ILIKE '%" ++ k ++ "%' OR VENDORNAME ILIKE '%" ++ k ++
      "%' OR ACCTNAME ILIKE '%" ++ k ++ "%' OR ANNOTATION ILIKE '%" ++ k ++ "%')")

/-- The interpretation shape `builder.ts`'s `buildSQL` reads: already-mapped
`group_by` columns, the raw `filters` object, and the pre-rendered exclude
clause strings attached by `interpret.ts`. -/
structure BuilderInterpretation where
  group_by : Option (List String)
  filters : Option (List (String × FilterVal))
  exclude : Option (List String)

/-- `builder.ts` lines 98-126, `buildSQL`: the `{ sqlAgg, sqlRaw }` pair. -/
def buildSQL (interpretation : BuilderInterpretation) (columns : List String) :
    String × String :=
  let groupBy := (interpretation.group_by.getD []).filter (fun col => columns.contains col)
  let filters := interpretation.filters.getD []
  let keywords := extractKeywords filters
  let excludeClauses := interpretation.exclude.getD []
  let whereClause := if keywords.isEmpty then "" else keywordSearchClause keywords
  let whereClause :=
    if excludeClauses.isEmpty then whereClause
    else whereClause ++ (if whereClause = "" then "" else " AND ") ++
      String.intercalate " AND " excludeClauses
  let base := "FROM STICK_DB.FINANCIAL.S3_GL"
  let whereSQL := if whereClause = "" then "" else "WHERE " ++ whereClause
  let selectFields := if groupBy.isEmpty then "" else String.intercalate ", " groupBy ++ ", "
  let groupByClause :=
    if groupBy.isEmpty then "" else "GROUP BY " ++ String.intercalate ", " groupBy
  let orderByClause :=
    if groupBy.isEmpty then "" else "ORDER BY " ++ String.intercalate ", " groupBy
  ("SELECT " ++ selectFields ++ "SUM(BALANCE) AS TOTAL " ++ base ++ " " ++ whereSQL ++ " " ++
     groupByClause ++ " " ++ orderByClause ++ " LIMIT 100",
   "SELECT * " ++ base ++ " " ++ whereSQL ++ " LIMIT 100")

/-- A row of the `S3_GL` table restricted to the four searchable text
columns the keyword predicate of `buildSQL` touches (`descriptionCol` is
DESCRIPTION, `vendorNameCol` VENDORNAME, `acctNameCol` ACCTNAME and
`annotCol` ANNOTATION). -/
structure GLRow where
  descriptionCol : String
  vendorNameCol : String
  acctNameCol : String
  annotCol : String
  deriving DecidableEq

/-- SQL `col ILIKE '%pat%'`: case-insensitive containment. -/
def ilikeContains (s pat : String) : Bool :=
  listContainsAux (jsToLower pat).data (jsToLower s).data

/-- Denotation of one per-term clause of `keywordSearchClause` on a row:
the OR of the four ILIKE contains checks. -/
def rowMatchesTerm (r : GLRow) (k : String) : Bool :=
  ilikeContains r.descriptionCol k || ilikeContains r.vendorNameCol k ||
    ilikeContains r.acctNameCol k || ilikeContains r.annotCol k

/-- Denotation of the whole keyword predicate of `buildSQL` on a row: the
AND of the per-term clauses. -/
def rowMatchesKeywords (keywords : List String) (r : GLRow) : Bool :=
  keywords.all (rowMatchesTerm r)

/-! ## Concrete fixtures shared by the theorems below -/

/-- A small live-column catalog containing the columns the fixtures use. -/
def liveColumns : List String :=
  ["ACCTNAME", "DESCRIPTION", "ANNOTATION", "VENDORNAME", "BALANCE", "PER_END_DATE"]

/-- A search-mode interpretation with no group-by and no filters. -/
def interpSearchEmpty : Interpretation := ⟨some "expenses", some [], some [], some "search"⟩

/-- A summary-mode interpretation with no group-by and no filters. -/
def interpSummaryEmpty : Interpretation := ⟨some "expenses", some [], some [], some "summary"⟩

/-- A summary-mode interpretation whose data type is the point-in-time
`balances`. -/
def interpBalances : Interpretation := ⟨some "balances", some [], some [], some "summary"⟩

/-- An interpretation carrying both a keyword filter and a resolvable named
equality filter. -/
def interpBothFilters : Interpretation :=
  ⟨some "expenses", some [],
   some [("keyword", FilterVal.str "electric"), ("vendor", FilterVal.str "Exxon")],
   some "search"⟩

/-- Trivial retrieval oracles: every query returns no rows, the semantic
search returns no matches. -/
def envEmpty : RetrievalEnv := ⟨fun _ => [], fun _ => []⟩

/-! ## C1 — combination of keyword, equality and exclude clauses -/

/-- C1, counterexample.  The claim says a query for an Intent with both a
keyword filter and resolved equality filters conjoins the keyword clause
AND the equality clauses.  In `route.ts` the two branches are exclusive:
with keyword `electric` and the resolvable filter `vendor = Exxon`, the
vendor filter does resolve to `VENDORNAME`, yet the generated WHERE
predicate holds only the keyword clause and never mentions `VENDORNAME`. -/
theorem c1_counterexample :
    resolveFilters [("keyword", FilterVal.str "electric"), ("vendor", FilterVal.str "Exxon")]
        liveColumns = [("VENDORNAME", FilterVal.str "Exxon")] ∧
    strContains (buildSnowflakeQuery interpBothFilters liveColumns false)
        "ACCTNAME ILIKE '%electric%'" = true ∧
    strContains (buildSnowflakeQuery interpBothFilters liveColumns false) "VENDORNAME" = false := by
  refine ⟨by decide, by decide, by decide⟩

/-- C1, amended.  A truthy keyword filter makes the WHERE predicate exactly
the keyword clause, whatever other (even resolvable) named or exclude
filters the Intent carries; equality clauses are emitted only when the
keyword is absent or falsy; and with no filter of any kind the generated
query has no WHERE clause at all. -/
theorem c1_keyword_overrides_equality (filters : List (String × FilterVal))
    (tableColumns : List String) (kv : FilterVal)
    (hk : List.lookup "keyword" filters = some kv) (ht : kv.truthy = true) :
    whereClauseOf filters tableColumns = keywordWhere kv ∧
    whereClauseOf [] tableColumns = "" ∧
    strContains (buildSnowflakeQuery interpSearchEmpty liveColumns false) "WHERE" = false := by
  refine ⟨?_, rfl, by decide⟩
  simp [whereClauseOf, hk, ht]

/-- C1, witness for the amended theorem at a concrete Intent. -/
theorem c1_keyword_overrides_equality_witness :
    whereClauseOf [("keyword", FilterVal.str "electric"), ("vendor", FilterVal.str "Exxon")]
        liveColumns = keywordWhere (FilterVal.str "electric") ∧
    whereClauseOf [] liveColumns = "" ∧
    strContains (buildSnowflakeQuery interpSearchEmpty liveColumns false) "WHERE" = false :=
  c1_keyword_overrides_equality _ liveColumns _ rfl (by decide)

/-! ## C2 — summary mode is a fast path -/

/-- C2.  In `summary` mode the fusion retriever executes only the aggregate
query: `combinedTextForSummary` and `rawDataText` both equal the formatted
aggregate table, the executed-query log holds the aggregate query alone, no
semantic-search call is made, and the provenance note is empty. -/
theorem c2_summary_fast_path (query : String) (interpretation : Interpretation)
    (tableColumns : List String) (env : RetrievalEnv)
    (h : interpretation.mode = some "summary") :
    fusionSmartRetrieval query interpretation tableColumns env =
      (⟨formatResultsAsTable
          (env.exec (buildSnowflakeQuery interpretation tableColumns false)),
        formatResultsAsTable
          (env.exec (buildSnowflakeQuery interpretation tableColumns false)),
        ""⟩,
       ⟨[buildSnowflakeQuery interpretation tableColumns false], []⟩) := by
  simp [fusionSmartRetrieval, h]

/-- C2, witness at a concrete summary-mode Intent and empty data store. -/
theorem c2_summary_fast_path_witness :
    fusionSmartRetrieval "summarize expenses" interpSummaryEmpty liveColumns envEmpty =
      (⟨formatResultsAsTable
          (envEmpty.exec (buildSnowflakeQuery interpSummaryEmpty liveColumns false)),
        formatResultsAsTable
          (envEmpty.exec (buildSnowflakeQuery interpSummaryEmpty liveColumns false)),
        ""⟩,
       ⟨[buildSnowflakeQuery interpSummaryEmpty liveColumns false], []⟩) :=
  c2_summary_fast_path "summarize expenses" interpSummaryEmpty liveColumns envEmpty rfl

/-! ## C3 — the provenance note in search mode -/

/-- C3, counterexample.  In search mode with zero aggregate rows the source
note is the fixed string `Note: results based on semantic search only.`,
not the string the claim asserts. -/
theorem c3_counterexample :
    (fusionSmartRetrieval "q" interpSearchEmpty liveColumns envEmpty).1.sourceNote =
        "Note: results based on semantic search only." ∧
    ¬ ((fusionSmartRetrieval "q" interpSearchEmpty liveColumns envEmpty).1.sourceNote =
        "results are based on semantic search only; structured data was unavailable") := by
  refine ⟨by decide, by decide⟩

/-- C3, amended.  In `search` mode the note is non-empty exactly when the
aggregate query returned zero rows, and in that case it equals the fixed
advisory string `Note: results based on semantic search only.`. -/
theorem c3_note_iff_no_agg_rows (query : String) (interpretation : Interpretation)
    (tableColumns : List String) (env : RetrievalEnv)
    (h : interpretation.mode = some "search") :
    ((fusionSmartRetrieval query interpretation tableColumns env).1.sourceNote ≠ "" ↔
      env.exec (buildSnowflakeQuery interpretation tableColumns false) = []) ∧
    (env.exec (buildSnowflakeQuery interpretation tableColumns false) = [] →
      (fusionSmartRetrieval query interpretation tableColumns env).1.sourceNote =
        "Note: results based on semantic search only.") := by
  simp only [fusionSmartRetrieval, h]
  cases hrows : env.exec (buildSnowflakeQuery interpretation tableColumns false) with
  | nil => simp [hrows]
  | cons r rest => simp [hrows]

/-- C3, witness for the amended theorem at a concrete search-mode run with
an empty data store. -/
theorem c3_note_iff_no_agg_rows_witness :
    ((fusionSmartRetrieval "q" interpSearchEmpty liveColumns envEmpty).1.sourceNote ≠ "" ↔
      envEmpty.exec (buildSnowflakeQuery interpSearchEmpty liveColumns false) = []) ∧
    (envEmpty.exec (buildSnowflakeQuery interpSearchEmpty liveColumns false) = [] →
      (fusionSmartRetrieval "q" interpSearchEmpty liveColumns envEmpty).1.sourceNote =
        "Note: results based on semantic search only.") :=
  c3_note_iff_no_agg_rows "q" interpSearchEmpty liveColumns envEmpty rfl

/-! ## C4 — aggregate function vs. data type -/

/-- C4, counterexample.  For a `balances` (point-in-time) data type the
claim requires the bare amount column with no SUM, but the generated
aggregate query still applies `SUM(BALANCE) AS TOTAL` — identically to the
`expenses` query. -/
theorem c4_counterexample :
    strContains (buildSnowflakeQuery interpBalances liveColumns false)
        "SUM(BALANCE) AS TOTAL" = true ∧
    buildSnowflakeQuery interpBalances liveColumns false =
      buildSnowflakeQuery ⟨some "expenses", some [], some [], some "summary"⟩
        liveColumns false := by
  exact ⟨by decide, rfl⟩

/-- C4, amended.  `dataType` has no effect at all on the generated queries
(the builder binds it and never reads it), and the aggregate query always
applies `SUM(BALANCE) AS TOTAL`. -/
theorem c4_sum_regardless_of_datatype (d d' : Option String) (gb : Option (List String))
    (f : Option (List (String × FilterVal))) (m : Option String)
    (tableColumns : List String) (isRaw : Bool) :
    buildSnowflakeQuery ⟨d, gb, f, m⟩ tableColumns isRaw =
      buildSnowflakeQuery ⟨d', gb, f, m⟩ tableColumns isRaw ∧
    strContains (buildSnowflakeQuery interpBalances liveColumns false)
        "SUM(BALANCE) AS TOTAL" = true := by
  exact ⟨rfl, by decide⟩

/-! ## C5 — multiple keywords narrow the result set -/

/-- C5.  The per-term contains clauses of `buildSQL`'s keyword predicate are
AND-ed together, so any row of any dataset matching the keywords
`["electric", "pump"]` also matches `["electric"]` alone: adding a keyword
narrows, never broadens, the filtered result set. -/
theorem c5_keywords_narrow (rows : List GLRow) (r : GLRow)
    (h : r ∈ rows.filter (rowMatchesKeywords ["electric", "pump"])) :
    r ∈ rows.filter (rowMatchesKeywords ["electric"]) ∧
    keywordSearchClause ["electric", "pump"] =
      keywordSearchClause ["electric"] ++ " AND " ++ keywordSearchClause ["pump"] := by
  refine ⟨?_, rfl⟩
  rw [List.mem_filter] at h ⊢
  refine ⟨h.1, ?_⟩
  have h2 := h.2
  simp only [rowMatchesKeywords, List.all_cons, List.all_nil, Bool.and_eq_true,
    Bool.and_true] at h2 ⊢
  exact h2.1

/-- A ledger row whose description mentions both search terms. -/
def pumpRow : GLRow := ⟨"electric pump repair", "", "", ""⟩

/-- C5, witness on a one-row dataset matching both keywords. -/
theorem c5_keywords_narrow_witness :
    pumpRow ∈ List.filter (rowMatchesKeywords ["electric"]) [pumpRow] ∧
    keywordSearchClause ["electric", "pump"] =
      keywordSearchClause ["electric"] ++ " AND " ++ keywordSearchClause ["pump"] :=
  c5_keywords_narrow [pumpRow] pumpRow (by decide)

/-! ## C6 — malformed classifier output fails fast -/

/-- C6.  When the classifier output does not parse as JSON (the `parsed`
oracle is `none`, as for the raw string `not json`), the request terminates
as a 500 error carrying the raw classifier output, and no data-store call —
neither connect, nor column fetch, nor query execution — is attempted. -/
theorem c6_malformed_classifier_output (reqQuery : Option String) (rawContent : String)
    (tableColumns : List String) (env : RetrievalEnv) (gptSummary : String)
    (h : jsFalsyStr reqQuery = false) :
    POSTmodel reqQuery rawContent none tableColumns env gptSummary =
      (.failure ("Error: " ++ ("Failed to parse GPT interpretation:\n" ++ rawContent)), []) ∧
    (POSTmodel reqQuery rawContent none tableColumns env gptSummary).1.status = 500 := by
  simp [POSTmodel, h, interpretQueryTail, RouteResponse.status]

/-- C6, witness: classifier output `not json` on a well-formed request. -/
theorem c6_malformed_classifier_output_witness :
    POSTmodel (some "show all electric expenses") "not json" none liveColumns envEmpty "" =
      (.failure ("Error: " ++ ("Failed to parse GPT interpretation:\n" ++ "not json")), []) ∧
    (POSTmodel (some "show all electric expenses") "not json" none liveColumns
        envEmpty "").1.status = 500 :=
  c6_malformed_classifier_output (some "show all electric expenses") "not json"
    liveColumns envEmpty "" (by decide)

/-! ## C7 — missing or empty query field -/

/-- C7, counterexample.  A missing or empty `query` is answered by the
catch-all handler with status 500 and the error payload
`Error: Query is required` — not by a 400 response with a
`{ message: "Query is required" }` body as the claim states. -/
theorem c7_counterexample :
    POSTmodel (some "") "{}" none liveColumns envEmpty "" =
      (.failure "Error: Query is required", []) ∧
    POSTmodel none "{}" none liveColumns envEmpty "" =
      (.failure "Error: Query is required", []) ∧
    (POSTmodel (some "") "{}" none liveColumns envEmpty "").1.status = 500 ∧
    ¬ ((POSTmodel (some "") "{}" none liveColumns envEmpty "").1.status = 400) := by
  refine ⟨by decide, by decide, by decide, by decide⟩

/-- C7, amended.  For every request whose `query` field is missing or empty
the handler fails fast: the response is the 500 error payload
`Error: Query is required`, no data-store call is made, and nothing is
retried. -/
theorem c7_empty_query_500 (reqQuery : Option String) (rawContent : String)
    (parsed : Option Interpretation) (tableColumns : List String) (env : RetrievalEnv)
    (gptSummary : String) (h : jsFalsyStr reqQuery = true) :
    POSTmodel reqQuery rawContent parsed tableColumns env gptSummary =
      (.failure "Error: Query is required", []) ∧
    (POSTmodel reqQuery rawContent parsed tableColumns env gptSummary).1.status = 500 := by
  simp [POSTmodel, h, RouteResponse.status]

/-- C7, witness for the amended theorem at the empty-string query. -/
theorem c7_empty_query_500_witness :
    POSTmodel (some "") "not json" none liveColumns envEmpty "" =
      (.failure "Error: Query is required", []) ∧
    (POSTmodel (some "") "not json" none liveColumns envEmpty "").1.status = 500 :=
  c7_empty_query_500 (some "") "not json" none liveColumns envEmpty "" (by decide)

/-! ## C8 — shape of the formatted result table -/

/-- C8, counterexample.  The claim says the formatted output of any
non-empty row sequence has a line count of rows plus two; a single row
whose value contains a newline already yields four textual lines instead of
three. -/
theorem c8_counterexample :
    textLineCount (formatResultsAsTable [[("K", some "a\nb")]]) = 4 ∧
    ¬ (textLineCount (formatResultsAsTable [[("K", some "a\nb")]]) =
        ([[("K", some "a\nb")]] : List RowObj).length + 2) := by
  refine ⟨by decide, by decide⟩

/-- C8, amended.  Formatting zero rows yields exactly `No results found.`
(never an empty table), and formatting non-empty rows yields the newline
join of one header row, one separator row and one pipe row per record —
rows plus two table rows (which coincide with textual lines whenever no
rendered cell contains a newline). -/
theorem c8_formatter_shape (rows : List RowObj) (h : rows ≠ []) :
    formatResultsAsTable [] = "No results found." ∧
    formatResultsAsTable rows = String.intercalate "\n" (tableLines rows) ∧
    (tableLines rows).length = rows.length + 2 := by
  refine ⟨rfl, ?_, ?_⟩
  · cases rows with
    | nil => exact absurd rfl h
    | cons r0 rest => simp [formatResultsAsTable]
  · cases rows with
    | nil => exact absurd rfl h
    | cons r0 rest =>
      simp only [tableLines, List.length_cons, List.length_map]

/-- C8, witness for the amended theorem on a one-row input. -/
theorem c8_formatter_shape_witness :
    formatResultsAsTable [] = "No results found." ∧
    formatResultsAsTable [[("A", some "1")]] =
      String.intercalate "\n" (tableLines [[("A", some "1")]]) ∧
    (tableLines [[("A", some "1")]]).length = ([[("A", some "1")]] : List RowObj).length + 2 :=
  c8_formatter_shape [[("A", some "1")]] (by decide)

/-! ## C9 — case and whitespace insensitivity of term resolution -/

/-- C9, counterexample.  The inline group-by resolver of `route.ts`
lowercases but never trims: against a catalog containing `VENDORNAME`, the
padded alias ` Vendor ` fails to resolve and is dropped while `vendor`
resolves — the two do not resolve identically. -/
theorem c9_counterexample :
    resolveGroupBy [" Vendor "] ["VENDORNAME"] = [] ∧
    resolveGroupBy ["vendor"] ["VENDORNAME"] = ["VENDORNAME"] ∧
    ¬ (resolveGroupBy [" Vendor "] ["VENDORNAME"] = resolveGroupBy ["vendor"] ["VENDORNAME"]) := by
  refine ⟨by decide, by decide, by decide⟩

/-- C9, amended.  `safeMapFields` of `columns.ts` normalizes by lowercasing
and trimming, so resolution there is invariant under letter case and
surrounding whitespace — ` Vendor ` and `vendor` both resolve to
`VENDORNAME`; the inline resolver of `route.ts` lowercases only and drops
whitespace-padded alias terms instead. -/
theorem c9_safeMapFields_normalizes (t1 t2 : String) (columns : List String)
    (h : jsTrim (jsToLower t1) = jsTrim (jsToLower t2)) :
    safeMapFields [t1] "group_by" columns = safeMapFields [t2] "group_by" columns ∧
    safeMapFields [" Vendor "] "group_by" ["VENDORNAME"] = ["VENDORNAME"] ∧
    safeMapFields ["vendor"] "group_by" ["VENDORNAME"] = ["VENDORNAME"] := by
  refine ⟨?_, by decide, by decide⟩
  simp only [safeMapFields, List.foldl_cons, List.foldl_nil, h]

/-- C9, witness for the amended theorem at ` Vendor ` and `vendor`. -/
theorem c9_safeMapFields_normalizes_witness :
    safeMapFields [" Vendor "] "group_by" ["VENDORNAME"] =
      safeMapFields ["vendor"] "group_by" ["VENDORNAME"] ∧
    safeMapFields [" Vendor "] "group_by" ["VENDORNAME"] = ["VENDORNAME"] ∧
    safeMapFields ["vendor"] "group_by" ["VENDORNAME"] = ["VENDORNAME"] :=
  c9_safeMapFields_normalizes " Vendor " "vendor" ["VENDORNAME"] (by decide)

/-! ## C10 — the silent electricity → electric substitution -/

/-- C10.  A keyword filter that is exactly the string `electricity` is
silently replaced by `electric`, so the generated queries for the two
keywords are identical; every other (truthy) keyword value is interpolated
into the predicate unchanged. -/
theorem c10_electricity_substitution (fs : List (String × FilterVal))
    (tableColumns : List String) (d : Option String) (gb : Option (List String))
    (m : Option String) (isRaw : Bool) (k : String)
    (h1 : k ≠ "electricity") (h2 : k ≠ "") :
    buildSnowflakeQuery ⟨d, gb, some (("keyword", FilterVal.str "electricity") :: fs), m⟩
        tableColumns isRaw =
      buildSnowflakeQuery ⟨d, gb, some (("keyword", FilterVal.str "electric") :: fs), m⟩
        tableColumns isRaw ∧
    whereClauseOf (("keyword", FilterVal.str k) :: fs) tableColumns =
      "(ACCTNAME ILIKE '%" ++ k ++ "%' OR DESCRIPTION ILIKE '%" ++ k ++
        "%' OR ANNOTATION ILIKE '%" ++ k ++ "%')" := by
  constructor
  · rfl
  · simp [whereClauseOf, List.lookup, FilterVal.truthy, h2, keywordWhere, keywordOf,
      FilterVal.toJs, h1]

/-- C10, witness at the untouched keyword `water`. -/
theorem c10_electricity_substitution_witness :
    buildSnowflakeQuery
        ⟨some "expenses", some [], some [("keyword", FilterVal.str "electricity")],
         some "search"⟩ liveColumns false =
      buildSnowflakeQuery
        ⟨some "expenses", some [], some [("keyword", FilterVal.str "electric")],
         some "search"⟩ liveColumns false ∧
    whereClauseOf [("keyword", FilterVal.str "water")] liveColumns =
      "(ACCTNAME ILIKE '%" ++ "water" ++ "%' OR DESCRIPTION ILIKE '%" ++ "water" ++
        "%' OR ANNOTATION ILIKE '%" ++ "water" ++ "%')" :=
  c10_electricity_substitution [] liveColumns (some "expenses") (some []) (some "search")
    false "water" (by decide) (by decide)

end StickAI
